import Mathlib

/-!
Verification of the dialogue/game engine of the `social_robotics` repository.

The Python sources are shallowly embedded as Lean functions:

* external collaborators (the speech-to-text word buffer, the OpenAI calls,
  the WAMP speech/gesture channel) are parameters of the embedded functions:
  a listen result stream `Nat → Option String` gives the value returned by
  the k-th `wait_for_response`/`listen` call, an oracle
  `String → Except String String` gives the outcome of an OpenAI request
  (`.error` models a raised exception);
* Python strings are Lean `String`s, with `replace`/`strip`/`split`/`lower`
  and the substring test `in` re-implemented below over `List Char` so that
  every definition evaluates inside the kernel;
* Python floats appear only as the accumulated `waited`/`silence_waited`
  second counters of `DialogueManager.listen`; they are modelled as `ℚ`
  (all additions performed by the code are exact on the values used);
* fallible code returns `Except`; a `while` loop whose counter provably
  advances every iteration is translated by structural recursion on the
  remaining count, a loop that need not terminate is translated with an
  explicit fuel argument (`none` = the loop was still running after `fuel`
  iterations).
-/

namespace SocialRobotics

/-! ## Python string primitives

Kernel-computable re-implementations of the Python string operations used by
the game engine: `str.lower`, `str.strip`, `str.replace`, `str.split()`,
`" ".join`, the substring operator `in`, and `str.translate` deletion of
`string.punctuation`. -/

/-- Python `str.lower` (the sources only ever lower ASCII text). -/
def strLower (s : String) : String := ⟨s.data.map Char.toLower⟩

/-- Contiguous-sublist test on character lists. -/
def hasSubstring (needle hay : List Char) : Bool :=
  hay.tails.any (fun t => needle.isPrefixOf t)

/-- Python substring operator: `needle in hay` on strings. -/
def pyIn (needle hay : String) : Bool := hasSubstring needle.data hay.data

/-- Python truthiness of an optional string: `None` and `""` are falsy. -/
def pyTruthy (s : Option String) : Bool :=
  match s with
  | none => false
  | some s => !(s = "")

/-- Normalise an optional string to `none` when it is Python-falsy. -/
def pyStr (s : Option String) : Option String :=
  match s with
  | none => none
  | some s => if s = "" then none else some s

/-- Python `str.strip()` with no argument: drop leading and trailing
whitespace (the sources only strip ASCII space/tab/newline). -/
def pyStrip (s : String) : String :=
  ⟨((s.data.dropWhile Char.isWhitespace).reverse.dropWhile Char.isWhitespace).reverse⟩

/-- One fuel-indexed pass of Python `str.replace`: replaces every
non-overlapping occurrence of `pat` (non-empty at all use sites) from the
left.  `fuel = s.length` always suffices because each step consumes at least
one character. -/
def replaceFuel (pat rep : List Char) : Nat → List Char → List Char
  | _, [] => []
  | 0, s => s
  | Nat.succ f, c :: rest =>
    if pat.isPrefixOf (c :: rest) then
      rep ++ replaceFuel pat rep f ((c :: rest).drop pat.length)
    else
      c :: replaceFuel pat rep f rest

/-- Python `s.replace(pat, rep)`. -/
def pyReplace (s pat rep : String) : String :=
  ⟨replaceFuel pat.data rep.data s.data.length s.data⟩

/-- Helper of `pySplitWs`: accumulate the current (reversed) word. -/
def splitWsGo : List Char → List Char → List String
  | [], [] => []
  | [], cur => [⟨cur.reverse⟩]
  | c :: rest, cur =>
    if c.isWhitespace then
      (if cur = [] then splitWsGo rest [] else ⟨cur.reverse⟩ :: splitWsGo rest [])
    else splitWsGo rest (c :: cur)

/-- Python `str.split()` with no argument: split on whitespace runs,
discarding empty fields. -/
def pySplitWs (s : String) : List String := splitWsGo s.data []

/-- Python `string.punctuation` (the backtick, apostrophe, and braces are
written with `\x` escapes). -/
def punctuationChars : String :=
  "!\"#$%&\x27()*+,-./:;<=>?@[\\]^_\x60\x7b|\x7d~"

/-- Python `s.translate(str.maketrans("", "", string.punctuation))`:
delete every punctuation character. -/
def stripPunct (s : String) : String :=
  ⟨s.data.filter (fun c => !(punctuationChars.data.contains c))⟩


/-! ## `assignment_1/game_utils.py` — `wait_for_response`

The poll loop of `wait_for_response(prompt_text, session, stt, timeout)`
(lines 32-51).  The spoken prompt and the two `stt.words = []` resets only
affect the external world; the words returned by the k-th
`stt.give_me_words()` call of the loop are modelled by `stream k`.  All call
sites pass an integral number of seconds and the poll interval is the
literal `1.0`, so `waited` always equals the number of completed polls and
the guard `waited < timeout` is modelled on `Nat`. -/

/-- Lines 40-44: join the drained words, strip the `<<<`/`>>>` framing
markers, strip whitespace, and keep only the first whitespace-separated
word when the cleaned text is longer than 50 characters. -/
def cleanResp (ws : List String) : String :=
  let raw := String.intercalate " " ws
  let cleaned := pyStrip (pyReplace (pyReplace raw "<<<" "") ">>>" "")
  if 50 < cleaned.length then (pySplitWs cleaned).headD "" else cleaned

/-- Lines 35-47: `while not response and waited < timeout` polling loop.
`remaining` is the number of polls still allowed (`timeout - waited`);
`i` is the index of the next `give_me_words` call. -/
def waitLoop (stream : Nat → List String) : Nat → Nat → Option String → Option String
  | 0, _, response => response
  | Nat.succ f, i, response =>
    if pyTruthy response then response
    else
      let words := stream i
      if words = [] then waitLoop stream f (i + 1) response
      else waitLoop stream f (i + 1) (some (cleanResp words))

/-- `wait_for_response`: returns the recognised response, or `none` on
timeout with nothing captured. -/
def waitForResponse (stream : Nat → List String) (timeout : Nat) : Option String :=
  waitLoop stream timeout 0 none

/-! ## `assignment_1/robot_guesses.py` — `play_game_robot_guesses`

The round loop (lines 40-76).  The Oracle call
`guess(last_feedback, previous_guesses)` is a parameter (`guess` itself
never raises: it returns a fixed apology string on error, so its behaviour
is a total function); the `wait_for_response` outcome of round k is
`listens k`. -/

/-- One recorded round: `{'guess': clean_guess, 'feedback': feedback}`
(line 60). -/
structure RGRound where
  guess : String
  feedback : String
deriving DecidableEq, Repr

/-- Result of the round loop: the history list, the final value of
`round_counter`, and whether the loop exited through the win `break`. -/
structure RGResult where
  history : List RGRound
  rounds : Nat
  won : Bool
deriving DecidableEq, Repr

/-- Line 45: `re.sub(r'[<>]', '', guess_question).strip()`. -/
def cleanGuess (s : String) : String :=
  pyStrip ⟨s.data.filter (fun c => !(c = '<') && !(c = '>'))⟩

/-- Lines 54-56: a falsy (`None` or empty) feedback is recorded as the
sentinel `"No response"`. -/
def pyFeedback (l : Option String) : String :=
  match pyStr l with
  | none => "No response"
  | some s => s

/-- Line 65: the affirmation keyword list. -/
def winKeywords : List String :=
  ["correct", "yes thats it", "exactly", "yes you guessed it"]

/-- Lines 64-66: lowercase the feedback, delete `string.punctuation`, and
test each keyword with the substring operator `in`. -/
def winCheck (feedback : String) : Bool :=
  winKeywords.any (fun k => pyIn k (stripPunct (strLower feedback)))

/-- Lines 40-72: `while round_counter < max_rounds` loop.  `remaining` is
`max_rounds - round_counter`; every iteration appends one round record and
increments `round_counter`, then either `break`s on an affirmation match or
continues with the feedback as `last_feedback`. -/
def robotLoop (oracle : String → List RGRound → String)
    (listens : Nat → Option String) :
    Nat → Nat → String → List RGRound → RGResult
  | 0, counter, _, hist => ⟨hist, counter, false⟩
  | Nat.succ f, counter, last, hist =>
    let q := cleanGuess (oracle last hist)
    let fb := pyFeedback (listens counter)
    let hist' := hist ++ [⟨q, fb⟩]
    if winCheck fb then ⟨hist', counter + 1, true⟩
    else robotLoop oracle listens f (counter + 1) fb hist'

/-- The round loop of `play_game_robot_guesses` started from round 0 with
empty feedback and history; `maxRounds` is 15 in the source (line 37). -/
def playRobotGuesses (oracle : String → List RGRound → String)
    (listens : Nat → Option String) (maxRounds : Nat) : RGResult :=
  robotLoop oracle listens maxRounds 0 "" []


/-! ## `assignment_3/game_control/user_guesses.py` — `play_game_user_guesses`

The guess loop (lines 63-89).  The `wait_for_response` outcome of the k-th
listen is `listens k`; the `(response_text, is_correct)` pair returned by
the `process_guess` Oracle call of the k-th iteration is `judge k`.
`difficulty` is bound to `1` on line 51 and is never assigned again; the
loop threads it unchanged so that its evolution can be stated.

An iteration whose listen is falsy speaks an apology and executes
`continue` WITHOUT touching `round_num`, so the loop has no termination
bound: it is embedded with a fuel argument, `none` meaning the loop was
still running after `fuel` iterations. -/

/-- Line 51: `difficulty = 1`. -/
def sessionDifficulty : Nat := 1

/-- State of the guess loop after it ends: final `round_num`, whether the
win `break` was taken, the accumulated `previous_hints`, and the (never
reassigned) `difficulty`. -/
structure UGResult where
  rounds : Nat
  won : Bool
  hints : List String
  difficulty : Nat
deriving DecidableEq, Repr

/-- Lines 67-84: `while round_num < max_rounds` loop with fuel.  A falsy
listen result repeats the iteration without incrementing `round_num`; a
truthy guess is judged, a correct one breaks, an incorrect one appends the
response to `previous_hints` and increments `round_num`. -/
def userLoop (listens : Nat → Option String) (judge : Nat → String × Bool)
    (maxRounds : Nat) :
    Nat → Nat → Nat → List String → Nat → Option UGResult
  | 0, _, _, _, _ => none
  | Nat.succ f, i, roundNum, hints, diff =>
    if roundNum < maxRounds then
      match pyStr (listens i) with
      | none => userLoop listens judge maxRounds f (i + 1) roundNum hints diff
      | some _ =>
        let rc := judge i
        if rc.2 then some ⟨roundNum, true, hints, diff⟩
        else userLoop listens judge maxRounds f (i + 1) (roundNum + 1)
          (hints ++ [rc.1]) diff
    else some ⟨roundNum, false, hints, diff⟩

/-- The guess loop as started by `play_game_user_guesses`: `round_num = 0`,
`max_rounds = 8` (line 64), `previous_hints = [initial_hint]` (line 65),
`difficulty = 1` (line 51). -/
def playUserGuesses (listens : Nat → Option String)
    (judge : Nat → String × Bool) (initialHint : String) (fuel : Nat) :
    Option UGResult :=
  userLoop listens judge 8 fuel 0 0 [initialHint] sessionDifficulty

/-! ## `assignment_3/dialogue/dialogue_manager.py` — `ask_with_reprompt`

Lines 104-146.  The value of the k-th `self.listen` call is `listens k`
(`listen` returns `None` or a string); the `give_hint` Oracle results are
spoken but never returned, except through the extra listen of the hint
branch, so they do not appear in the state.  The embedding also returns the
list of values taken by `attempt` at each executed iteration of
`for attempt in range(max_attempts)`, which is what the claim about
"repeat" is about. -/

/-- Lines 121-146, one iteration per call.  `remaining` is the number of
loop indices not yet consumed (`max_attempts - attempt`); `attempt` is the
current loop index and `l` the index of the next listen call.  Returns the
function result together with the trace of `attempt` values. -/
def askAux (listens : Nat → Option String) (maxAttempts : Nat)
    (hasCtx : Bool) : Nat → Nat → Nat → Option String × List Nat
  | 0, _, _ => (none, [])
  | Nat.succ f, attempt, l =>
    match pyStr (listens l) with
    | some r =>
      if pyIn "repeat" (strLower r) then
        -- line 129: `continue` — the `for` loop moves to the NEXT attempt
        let rec' := askAux listens maxAttempts hasCtx f (attempt + 1) (l + 1)
        (rec'.1, attempt :: rec'.2)
      else if pyIn "hint" (strLower r) && hasCtx then
        -- lines 130-136: speak a hint, listen once more, return if truthy
        match pyStr (listens (l + 1)) with
        | some r2 => (some r2, [attempt])
        | none =>
          let rec' := askAux listens maxAttempts hasCtx f (attempt + 1) (l + 2)
          (rec'.1, attempt :: rec'.2)
      else (some r, [attempt])
    | none =>
      if attempt = 1 && hasCtx then
        -- lines 139-143: proactive hint after the second timeout
        let rec' := askAux listens maxAttempts hasCtx f (attempt + 1) (l + 1)
        (rec'.1, attempt :: rec'.2)
      else if attempt = maxAttempts - 1 then
        -- lines 144-146: announce moving on and return None
        (none, [attempt])
      else
        let rec' := askAux listens maxAttempts hasCtx f (attempt + 1) (l + 1)
        (rec'.1, attempt :: rec'.2)

/-- `ask_with_reprompt(prompt, gesture, max_attempts, game_context)`:
the result and the `attempt` trace. -/
def askWithReprompt (listens : Nat → Option String) (maxAttempts : Nat)
    (hasCtx : Bool) : Option String × List Nat :=
  askAux listens maxAttempts hasCtx maxAttempts 0 0


/-! ## `assignment_3/dialogue/dialogue_manager.py` — `listen`

Lines 42-101.  The words seen by the k-th `self.stt.give_me_words()` call
issued during this `listen` are `stream k`.  Per the documented shapes
(plain tokens, or `(token, confidence)` pairs), a drained batch is either a
list of strings or a list of pairs; the defensive `else` branch of lines
70-72 (words of any other type) is unreachable under that contract and is
not modelled.  `words[0]` on an empty changed batch (line 85) raises
`IndexError`, modelled as `.error .indexError`.  Timeouts are `ℚ`-valued
seconds; the loops add `poll_interval` to `waited` each iteration, so they
terminate exactly when `0 < poll_interval`, which the embedding takes as a
hypothesis (Python diverges otherwise). -/

/-- One drained word batch. -/
inductive Drained where
  | strs (ws : List String)
  | tups (ps : List (String × ℚ))
deriving DecidableEq, Repr

/-- Python `if words:` — emptiness of the drained batch. -/
def drainedIsEmpty : Drained → Bool
  | .strs ws => ws.isEmpty
  | .tups ps => ps.isEmpty

/-- Lines 66-69 / 85-88: normalise the two token shapes into one joined
string. -/
def normalizeDrain : Drained → String
  | .strs ws => String.intercalate " " ws
  | .tups ps => String.intercalate " " (ps.map (fun p => p.1))

/-- Error outcome of `listen`: the `IndexError` of `words[0]` on an empty
changed batch. -/
inductive ListenErr where
  | indexError
deriving DecidableEq, Repr

/-- Decrease of the remaining-poll measure used by the `listen` loops. -/
theorem ceil_measure_lt {poll timeout waited : ℚ} (hp : 0 < poll)
    (h : waited < timeout) :
    (⌈(timeout - (waited + poll)) / poll⌉).toNat < (⌈(timeout - waited) / poll⌉).toNat := by
  have hrw : (timeout - (waited + poll)) / poll = (timeout - waited) / poll - 1 := by
    field_simp
    ring
  rw [hrw, Int.ceil_sub_one]
  have hy : 0 < (timeout - waited) / poll := by
    apply div_pos _ hp
    linarith
  have hc : (0 : ℤ) < ⌈(timeout - waited) / poll⌉ := by
    exact_mod_cast Int.ceil_pos.mpr hy
  omega

/-- Lines 76-96: the confirmation phase.  `words` is the last captured
batch, `response` the current best joined response, `sw` the value of
`silence_waited`.  The phase returns the best response when the silence
window elapses with no change or when the total timeout is reached, and
crashes with `IndexError` if a changed batch is empty. -/
def listenConfirm (stream : Nat → Drained) (poll silence timeout : ℚ)
    (hp : 0 < poll) (k : Nat) (waited sw : ℚ) (words : Drained)
    (response : String) : Except ListenErr (Option String) :=
  if silence ≤ sw then .ok (some response)
  else
    let nw := stream k
    if nw = words then
      if timeout ≤ waited + poll then .ok (some response)
      else listenConfirm stream poll silence timeout hp (k + 1) (waited + poll)
        (sw + poll) words response
    else
      if drainedIsEmpty nw then .error .indexError
      else
        let r := normalizeDrain nw
        if timeout ≤ waited + poll then .ok (some r)
        else listenConfirm stream poll silence timeout hp (k + 1) (waited + poll) 0 nw r
termination_by (⌈(timeout - waited) / poll⌉).toNat
decreasing_by
  · have hw : waited + poll < timeout := lt_of_not_le (by assumption)
    exact ceil_measure_lt hp (lt_of_le_of_lt (le_add_of_nonneg_right hp.le) hw)
  · have hw : waited + poll < timeout := lt_of_not_le (by assumption)
    exact ceil_measure_lt hp (lt_of_le_of_lt (le_add_of_nonneg_right hp.le) hw)

/-- Lines 60-101: the outer polling loop.  Returns `.ok none` when the
timeout elapses with no words ever seen; on the first non-empty drain it
captures the joined response and enters the confirmation phase. -/
def listenLoop (stream : Nat → Drained) (poll silence timeout : ℚ)
    (hp : 0 < poll) (k : Nat) (waited : ℚ) : Except ListenErr (Option String) :=
  if timeout ≤ waited then .ok none
  else
    let ws := stream k
    if drainedIsEmpty ws then
      listenLoop stream poll silence timeout hp (k + 1) (waited + poll)
    else listenConfirm stream poll silence timeout hp (k + 1) (waited + poll) 0 ws
      (normalizeDrain ws)
termination_by (⌈(timeout - waited) / poll⌉).toNat
decreasing_by
  have hw : waited < timeout := lt_of_not_le (by assumption)
  exact ceil_measure_lt hp hw

/-- `DialogueManager.listen(timeout, silence_after_speech, poll_interval)`:
line 52 substitutes the default timeout 15 for a falsy argument
(`timeout or self.default_timeout`), line 53 resets the word buffer (the
drain stream starts fresh), then the polling loop runs from
`waited = 0.0`. -/
def listen (stream : Nat → Drained) (poll silence : ℚ)
    (timeoutArg : Option ℚ) (hp : 0 < poll) : Except ListenErr (Option String) :=
  let timeout := match timeoutArg with
    | none => 15
    | some t => if t = 0 then 15 else t
  listenLoop stream poll silence timeout hp 0 0

/-! ## `assignment_3/api/api_handler.py` — `choose_object`

Lines 133-412.  The scan results are a list of `(id, data)` pairs (Python
dict in insertion order).  The network/vision part (the prompt sent to the
OpenAI client and the filesystem image lookup of lines 183-305) only
influences the response text; the two parses of that text —
`json.loads(response_text)` of line 313 and the secondary
`json.loads(json_match.group(1))` of line 401 — are therefore parameters:
`primary` is the result of the first parse, and `extracted` is
`none` when the regex of line 398 finds no JSON-looking group, or
`some p` with `p` the result of parsing the extracted group.  The
pass-through of detection metadata (`yaw`, `pitch`, ..., lines 317-333)
does not touch the feature fields and is not modelled. -/

/-- The `features` dictionary of a detailed object. -/
structure Features where
  color : String
  size : String
  shape : String
deriving DecidableEq, Repr

/-- A parsed detailed object (name plus features; the claims are about
these fields). -/
structure DetailedObject where
  name : String
  features : Features
deriving DecidableEq, Repr

/-- One scanned object as fed to `choose_object`: detection name,
confidence, and `source` tag. -/
structure ObjData where
  name : String
  confidence : ℚ
  source : String
deriving DecidableEq, Repr

/-- Lines 344-351: the `common_colors` name→color fallback table, in dict
insertion order. -/
def commonColors : List (String × String) :=
  [("monitor", "black"), ("computer", "silver"), ("laptop", "silver"),
   ("chair", "black"), ("sofa", "gray"), ("table", "brown"),
   ("book", "multicolored"), ("phone", "black"), ("bottle", "clear"),
   ("mouse", "black"), ("keyboard", "black"), ("cup", "white"),
   ("desk", "brown"), ("window", "transparent"), ("door", "brown"),
   ("wall", "white"), ("floor", "gray"), ("ceiling", "white")]

/-- Line 362: names treated as large objects for the size fallback. -/
def largeObjects : List String :=
  ["table", "sofa", "desk", "bed", "bookshelf", "door", "window"]

/-- Line 363: names treated as small objects for the size fallback. -/
def smallObjects : List String :=
  ["phone", "mouse", "pen", "remote", "key", "cup", "bottle"]

/-- Lines 374-380: the name→shape fallback table, in dict insertion
order. -/
def shapeTable : List (String × String) :=
  [("monitor", "rectangular"), ("computer", "rectangular"),
   ("chair", "chair-shaped"), ("table", "rectangular"),
   ("book", "rectangular"), ("phone", "rectangular"),
   ("bottle", "cylindrical"), ("cup", "cylindrical"),
   ("ball", "spherical"), ("bowl", "round")]

/-- Lines 342-358: rewrite an `"unknown"` color from the name table, else
`"multicolored"`. -/
def fixColor (nameLower : String) (c : String) : String :=
  if c = "unknown" then
    match commonColors.find? (fun kv => pyIn kv.1 nameLower) with
    | some kv => kv.2
    | none => "multicolored"
  else c

/-- Lines 360-370: rewrite an `"unknown"` size from the large/small name
lists, else `"medium"`. -/
def fixSize (nameLower : String) (s : String) : String :=
  if s = "unknown" then
    if largeObjects.any (fun o => pyIn o nameLower) then "large"
    else if smallObjects.any (fun o => pyIn o nameLower) then "small"
    else "medium"
  else s

/-- Lines 372-387: rewrite an `"unknown"` shape from the name table, else
`"irregular"`. -/
def fixShape (nameLower : String) (sh : String) : String :=
  if sh = "unknown" then
    match shapeTable.find? (fun kv => pyIn kv.1 nameLower) with
    | some kv => kv.2
    | none => "irregular"
  else sh

/-- Lines 335-389: the feature verification block.  It fires only when at
least one feature field is the literal `"unknown"`, and then rewrites each
unknown field through the tables. -/
def fixFeatures (dobj : DetailedObject) : DetailedObject :=
  let f := dobj.features
  if f.color = "unknown" || f.size = "unknown" || f.shape = "unknown" then
    let nl := strLower dobj.name
    ⟨dobj.name, ⟨fixColor nl f.color, fixSize nl f.size, fixShape nl f.shape⟩⟩
  else dobj

/-- Line 162: simple-name list for difficulty 1 (also reused on lines 165
and 169). -/
def simpleNames1 : List String :=
  ["chair", "table", "bottle", "cup", "book", "desk", "monitor", "keyboard"]

/-- Line 165: names excluded at difficulty 2. -/
def simpleNames2 : List String := ["chair", "table", "bottle", "cup"]

/-- Lines 154-170: the difficulty-based candidate filter. -/
def difficultyCandidates (chatgpt : List (String × ObjData)) (difficulty : Nat) :
    List (String × ObjData) :=
  chatgpt.filter (fun kv =>
    if difficulty = 1 then simpleNames1.any (fun s => pyIn s (strLower kv.2.name))
    else if difficulty = 2 then
      !(simpleNames2.any (fun s => pyIn s (strLower kv.2.name)))
    else !(simpleNames1.any (fun s => pyIn s (strLower kv.2.name))))

/-- `choose_object(objects, difficulty)`.  Returns `none` when no
ChatGPT-sourced object exists (lines 148-152) or when neither parse of the
Oracle response succeeds; a successful primary parse goes through the
feature verification block, while an object recovered by the secondary
regex extraction is returned as-is (line 403). -/
def choose_object (objects : List (String × ObjData)) (difficulty : Nat)
    (primary : Option DetailedObject)
    (extracted : Option (Option DetailedObject)) : Option DetailedObject :=
  let chatgpt := objects.filter (fun kv => kv.2.source = "chatgpt")
  if chatgpt.isEmpty then none
  else
    -- lines 154-180 select and rank prompt candidates; they only shape the
    -- Oracle request, which the parse parameters already summarise
    let _candidates :=
      let c := difficultyCandidates chatgpt difficulty
      if c.isEmpty then chatgpt else c
    match primary with
    | some dobj => some (fixFeatures dobj)
    | none =>
      match extracted with
      | some (some dobj) => some dobj
      | some none => none
      | none => none

/-! ## `assignment_3/api/give_hint.py`

The hint generator.  The OpenAI call of `_generate_gpt_hint` is an oracle
parameter, but the prompt is built first by `_build_chat_prompt`, whose
f-string of lines 101-107 evaluates every interpolated expression —
including the unbound name `difference` on line 104 — before any request is
made.  F-string interpolation is modelled by `evalFString`: a part is a
literal or an expression together with the names it reads; evaluating an
expression whose names are not all bound raises `NameError`. -/

/-- The game object dictionary used by the hint functions: `name`,
`dutch_name`, and the feature fields. -/
structure GameObject where
  name : String
  dutchName : String
  features : Features
deriving DecidableEq, Repr

/-- One f-string fragment: a literal, or an interpolated expression with
the names it references and its rendered value when those names are
bound. -/
inductive FPart where
  | lit (s : String)
  | expr (names : List String) (value : String)

/-- Evaluate an f-string: concatenate fragments, raising `NameError` on the
first expression that reads an unbound name. -/
def evalFString (bound : List String) : List FPart → Except String String
  | [] => .ok ""
  | .lit s :: rest => (evalFString bound rest).map (fun t => s ++ t)
  | .expr names v :: rest =>
    if names.all (fun n => bound.contains n) then
      (evalFString bound rest).map (fun t => v ++ t)
    else .error "NameError: name is not defined"

/-- The names bound in the body of `_build_chat_prompt` when the f-string
of lines 101-107 is evaluated: exactly its eight parameters. -/
def buildChatPromptScope : List String :=
  ["obj_name", "dutch_name", "color", "size", "shape", "difficulty",
   "round_num", "prev_hints"]

/-- Lines 101-107: the f-string assigned to `prompt`, fragment by fragment.
The interpolation `{difference}` reads a name that is not in scope; its
rendered value is irrelevant (evaluation raises first). -/
def buildChatPromptParts (objName dutchName color size shape : String)
    (roundNum : Nat) (prevHintsRepr : String) : List FPart :=
  [.lit "I\x27m playing an \x27I Spy\x27 game where players guess this object: \x27",
   .expr ["obj_name"] objName,
   .lit "\x27 (Dutch: \x27",
   .expr ["dutch_name"] dutchName,
   .lit "\x27). The object has these features: color: ",
   .expr ["color"] color,
   .lit ", size: ",
   .expr ["size"] size,
   .lit ", shape: ",
   .expr ["shape"] shape,
   .lit ".\n\nThis is round ",
   .expr ["round_num"] (toString (roundNum + 1)),
   .lit " of the game, difficulty level ",
   .expr ["difference"] "",
   .lit " (1=easy, 3=hard).\n\nPrevious hints given: ",
   .expr ["prev_hints"] prevHintsRepr,
   .lit "\n\nPlease generate a single hint for this round that:"]

/-- Lines 109-128: the round-dependent requirement block appended to the
prompt (all literals once `round_num` is bound). -/
def roundClause (roundNum : Nat) : String :=
  if roundNum = 0 then
    "\n- Is in English only\n- Mentions the color of the object\n- Is clear and straightforward for all players"
  else if roundNum = 1 then
    "\n- Is in Dutch only, enclosed in <nl>...</nl> tags\n- Mentions the shape of the object\n- Uses simple Dutch vocabulary\n- Avoids contextual clues (e.g., usage or location)"
  else
    "\n- Is bilingual: first in Dutch (in <nl>...</nl> tags), then in English\n- Mentions a feature like size or another attribute\n- Avoids contextual clues in early rounds\n- Gets more specific as rounds progress (this is round " ++
      toString (roundNum + 1) ++ ")"

/-- Lines 130-144: the difficulty-dependent requirement block. -/
def difficultyClause (difficulty : Nat) : String :=
  if difficulty = 1 then
    "\n- Is suitable for younger players\n- Makes the object fairly easy to guess by round 3"
  else if difficulty = 2 then
    "\n- Is moderately challenging but fair\n- Requires some thinking"
  else
    "\n- Is challenging with indirect references\n- Requires creative thinking"

/-- Lines 146-150: the closing instructions. -/
def promptTail : String :=
  "\n\nYour response should be just the hint itself - no explanations.\nThe hint should be ONE sentence, simple enough for a robot to speak.\nDo not reveal the object directly."

/-- `_build_chat_prompt` (lines 86-153): evaluate the initial f-string in
the scope of the eight parameters, then append the clause blocks. -/
def buildChatPrompt (objName dutchName color size shape : String)
    (difficulty roundNum : Nat) (prevHintsRepr : String) :
    Except String String :=
  (evalFString buildChatPromptScope
      (buildChatPromptParts objName dutchName color size shape roundNum
        prevHintsRepr)).map
    (fun p => p ++ roundClause roundNum ++ difficultyClause difficulty ++ promptTail)

/-- `_generate_gpt_hint` (lines 54-83): build the prompt, then send it to
the OpenAI oracle (which may itself fail). -/
def generateGptHint (oracle : String → Except String String) (obj : GameObject)
    (difficulty roundNum : Nat) (prevHintsRepr : String) :
    Except String String := do
  let prompt ← buildChatPrompt obj.name obj.dutchName obj.features.color
    obj.features.size obj.features.shape difficulty roundNum prevHintsRepr
  oracle prompt

/-- `_initial_hint` (lines 34-51). -/
def initialHint (difficulty : Nat) (obj : GameObject) : String :=
  if difficulty = 1 then
    "The object I\x27m thinking of is " ++ obj.features.color ++ "."
  else if difficulty = 2 then
    "I spy with my little eye, something that is " ++ obj.features.size ++ "."
  else "I spy with my little eye, something in this room."

/-- Lines 170-192: the canned fallback hint table for one difficulty. -/
def fallbackTable (difficulty : Nat) (obj : GameObject) : List String :=
  let level1 :=
    ["It is " ++ obj.features.color ++ " in color.",
     "It is " ++ obj.features.size ++ " in size.",
     "It has a " ++ obj.features.shape ++ " shape.",
     "You might use this object every day.",
     "Look around the room carefully."]
  if difficulty = 1 then level1
  else if difficulty = 2 then
    ["This object is used for a specific purpose.",
     "You might find this in many homes or offices.",
     "Think about objects that are " ++ obj.features.size ++ ".",
     "This object has a specific function.",
     "It\x27s something you might interact with regularly."]
  else if difficulty = 3 then
    ["This object serves a purpose that helps people.",
     "Look beyond the obvious things in the room.",
     "Consider objects you might take for granted.",
     "This object has been around for quite some time.",
     "Think about what you use in your daily activities."]
  else level1

/-- `_fallback_hint` (lines 156-196): index the table at
`min(round_num, len(difficulty_hints) - 1)`. -/
def fallbackHint (difficulty roundNum : Nat) (obj : GameObject) : String :=
  let hints := fallbackTable difficulty obj
  hints.getD (min roundNum (hints.length - 1)) ""

/-- Python `hint.strip('"\'')`: drop leading and trailing quote
characters (line 28). -/
def stripQuotes (s : String) : String :=
  let isQ := fun c : Char => c = '"' || c = '\x27'
  ⟨((s.data.dropWhile isQ).reverse.dropWhile isQ).reverse⟩

/-- `give_hint` (lines 8-31): initial hints come from `_initial_hint`;
otherwise try the GPT path and fall back to `_fallback_hint` on any
exception. -/
def give_hint (oracle : String → Except String String) (obj : GameObject)
    (difficulty roundNum : Nat) (prevHintsRepr : String)
    (isInitialHint : Bool) : String :=
  if isInitialHint then initialHint difficulty obj
  else
    match generateGptHint oracle obj difficulty roundNum prevHintsRepr with
    | .ok h => stripQuotes h
    | .error _ => fallbackHint difficulty roundNum obj

/-! ## `assignment_3/game_control/play_game.py` — mode dispatch

Lines 77-85, together with the Python call-binding rules needed to decide
whether the dispatched calls are well-formed.  A function definition
without `*args`/`**kwargs` is its parameter list plus the number of
trailing parameters that carry defaults; a call site is its number of
positional arguments plus its keyword names.  `bindOk` is CPython's binding
check: not more positional arguments than parameters, every keyword names a
parameter not already filled positionally, and every default-less parameter
is filled.  A call with `bindOk = false` raises `TypeError` before the body
runs. -/

/-- A Python `def` header: parameters in order, and how many of the last
ones have defaults. -/
structure PyDef where
  params : List String
  numDefaults : Nat
deriving DecidableEq, Repr

/-- The shape of a call site: positional argument count and keyword
names. -/
structure PyCallShape where
  numPositional : Nat
  keywords : List String
deriving DecidableEq, Repr

/-- CPython argument binding succeeds. -/
def bindOk (d : PyDef) (c : PyCallShape) : Bool :=
  decide (c.numPositional ≤ d.params.length) &&
  c.keywords.all (fun kw =>
    d.params.contains kw && !(decide (d.params.indexOf kw < c.numPositional))) &&
  (List.range (d.params.length - d.numDefaults)).all (fun i =>
    decide (i < c.numPositional) || c.keywords.contains (d.params.getD i ""))

/-- `assignment_3/game_control/user_guesses.py` line 16:
`def play_game_user_guesses(session, stt)`. -/
def playGameUserGuessesDef : PyDef := ⟨["session", "stt"], 0⟩

/-- `assignment_3/game_control/robot_guesses.py` line 21:
`def play_game_robot_guesses(session, stt, dialogue_manager, difficulty=1,
scan_mode="static")`. -/
def playGameRobotGuessesDef : PyDef :=
  ⟨["session", "stt", "dialogue_manager", "difficulty", "scan_mode"], 2⟩

/-- The call shape of `play_game.py` lines 79 and 85:
`play_game_user_guesses(session, stt, dialogue_manager,
difficulty=difficulty, scan_mode=scan_mode)`. -/
def userGuessesCallShape : PyCallShape := ⟨3, ["difficulty", "scan_mode"]⟩

/-- The call shape of `play_game.py` line 82 (same arguments, robot
mode). -/
def robotGuessesCallShape : PyCallShape := ⟨3, ["difficulty", "scan_mode"]⟩

/-- Which game-mode call `play_game` dispatches to. -/
inductive Dispatch where
  | userCall
  | robotCall
deriving DecidableEq, Repr

/-- Lines 77-85: `if choice and "i guess" in choice.lower(): ... elif
choice and "you guess" in choice.lower(): ... else: ...` — the final
`else` also starts the user-guesses mode. -/
def chooseDispatch (choice : Option String) : Dispatch :=
  match pyStr choice with
  | some c =>
    if pyIn "i guess" (strLower c) then .userCall
    else if pyIn "you guess" (strLower c) then .robotCall
    else .userCall
  | none => .userCall

/-- Whether the call dispatched for a given mode choice binds without a
`TypeError`. -/
def dispatchBindOk (choice : Option String) : Bool :=
  match chooseDispatch choice with
  | .userCall => bindOk playGameUserGuessesDef userGuessesCallShape
  | .robotCall => bindOk playGameRobotGuessesDef robotGuessesCallShape

/-! ## Helper lemmas -/

/-- Every result of `waitLoop` is either the carried response or the
cleaned text of some polled non-empty drain. -/
theorem waitLoop_some (stream : Nat → List String) :
    ∀ f i resp r, waitLoop stream f i resp = some r →
      resp = some r ∨
      ∃ j, i ≤ j ∧ j < i + f ∧ stream j ≠ [] ∧ r = cleanResp (stream j) := by
  intro f
  induction f with
  | zero =>
    intro i resp r h
    simp only [waitLoop] at h
    exact Or.inl h
  | succ f ih =>
    intro i resp r h
    simp only [waitLoop] at h
    by_cases ht : pyTruthy resp = true
    · rw [if_pos ht] at h
      exact Or.inl h
    · rw [if_neg ht] at h
      by_cases he : stream i = []
      · rw [if_pos he] at h
        rcases ih (i + 1) resp r h with h1 | ⟨j, hj1, hj2, hj3, hj4⟩
        · exact Or.inl h1
        · exact Or.inr ⟨j, by omega, by omega, hj3, hj4⟩
      · rw [if_neg he] at h
        rcases ih (i + 1) (some (cleanResp (stream i))) r h with h1 | ⟨j, hj1, hj2, hj3, hj4⟩
        · exact Or.inr ⟨i, le_refl i, by omega, he, (Option.some_injective _ h1).symm⟩
        · exact Or.inr ⟨j, by omega, by omega, hj3, hj4⟩

/-- `robotLoop` preserves the invariant that the history length equals the
round counter and that each recorded feedback is the (defaulted) listen
outcome of its round. -/
theorem robotLoop_invariant (oracle : String → List RGRound → String)
    (listens : Nat → Option String) :
    ∀ f c last hist, hist.length = c →
      (∀ j, (hj : j < hist.length) →
        (hist.get ⟨j, hj⟩).feedback = pyFeedback (listens j)) →
      ((robotLoop oracle listens f c last hist).history.length =
          (robotLoop oracle listens f c last hist).rounds ∧
        ∀ j, (hj : j < (robotLoop oracle listens f c last hist).history.length) →
          ((robotLoop oracle listens f c last hist).history.get ⟨j, hj⟩).feedback =
            pyFeedback (listens j)) := by
  intro f
  induction f with
  | zero =>
    intro c last hist hlen hfb
    simp only [robotLoop]
    exact ⟨hlen, hfb⟩
  | succ f ih =>
    intro c last hist hlen hfb
    simp only [robotLoop]
    have hlen' : (hist ++ [(⟨cleanGuess (oracle last hist),
        pyFeedback (listens c)⟩ : RGRound)]).length = c + 1 := by
      simp [hlen]
    have hfb' : ∀ j, (hj : j < (hist ++ [(⟨cleanGuess (oracle last hist),
        pyFeedback (listens c)⟩ : RGRound)]).length) →
        ((hist ++ [(⟨cleanGuess (oracle last hist),
          pyFeedback (listens c)⟩ : RGRound)]).get ⟨j, hj⟩).feedback =
          pyFeedback (listens j) := by
      intro j hj
      rcases Nat.lt_or_ge j hist.length with hlt | hge
      · rw [List.get_eq_getElem, List.getElem_append_left hlt]
        exact hfb j hlt
      · have hjc : j = c := by
          simp at hj
          omega
        subst hjc
        have hje : j = hist.length := by omega
        rw [List.get_eq_getElem]
        subst hje
        simp
    by_cases hw : winCheck (pyFeedback (listens c)) = true
    · rw [if_pos hw]
      exact ⟨hlen', hfb'⟩
    · rw [if_neg hw]
      exact ih (c + 1) (pyFeedback (listens c)) _ hlen' hfb'

/-! ## Claim theorems -/

/-- Claim C10: for every response recognised by `wait_for_response`, the
returned text is the join of the drained tokens with the `<<<` and `>>>`
markers removed and whitespace stripped, truncated to its first
whitespace-separated word exactly when the cleaned text is longer than 50
characters.  Formally: every `some` result of the poll loop is the cleanup
of a non-empty drain obtained before the timeout. -/
theorem claim_C10_response_cleanup :
    ∀ (stream : Nat → List String) (timeout : Nat) (r : String),
      waitForResponse stream timeout = some r →
      ∃ j, j < timeout ∧ stream j ≠ [] ∧
        r = (let cleaned := pyStrip (pyReplace (pyReplace
              (String.intercalate " " (stream j)) "<<<" "") ">>>" "")
             if 50 < cleaned.length then (pySplitWs cleaned).headD ""
             else cleaned) := by
  intro stream timeout r h
  rcases waitLoop_some stream timeout 0 none r h with h1 | ⟨j, _, hj2, hj3, hj4⟩
  · cases h1
  · exact ⟨j, by omega, hj3, hj4⟩

/-- Claim C10 witness: a short response is returned in full after marker
stripping; a response whose cleaned text exceeds 50 characters is truncated
to its first word. -/
theorem claim_C10_witness :
    (∃ j, j < 3 ∧
      (fun i => if i = 0 then ([] : List String)
        else ["<<<hello", "there>>>"]) j ≠ [] ∧
      "hello there" = (let cleaned := pyStrip (pyReplace (pyReplace
            (String.intercalate " "
              ((fun i => if i = 0 then ([] : List String)
                else ["<<<hello", "there>>>"]) j)) "<<<" "") ">>>" "")
          if 50 < cleaned.length then (pySplitWs cleaned).headD ""
          else cleaned)) ∧
    (∃ j, j < 2 ∧
      (fun _ : Nat => ["aaaaaaaaaa", "bbbbbbbbbb", "cccccccccc",
        "dddddddddd", "eeeeeeeeee", "ffffffffff"]) j ≠ [] ∧
      "aaaaaaaaaa" = (let cleaned := pyStrip (pyReplace (pyReplace
            (String.intercalate " "
              ((fun _ : Nat => ["aaaaaaaaaa", "bbbbbbbbbb", "cccccccccc",
                "dddddddddd", "eeeeeeeeee", "ffffffffff"]) j)) "<<<" "") ">>>" "")
          if 50 < cleaned.length then (pySplitWs cleaned).headD ""
          else cleaned)) := by
  constructor
  · exact claim_C10_response_cleanup _ 3 "hello there" (by decide)
  · exact claim_C10_response_cleanup _ 2 "aaaaaaaaaa" (by decide)

/-- Claim C7: in engine-guesses mode every iteration — including one whose
listen returned no response — appends exactly one round record and
increments the round counter: the recorded history length always equals the
number of completed rounds, and the record of round j carries the listen
outcome of round j with falsy outcomes replaced by the sentinel
`"No response"`. -/
theorem claim_C7_history :
    ∀ (oracle : String → List RGRound → String)
      (listens : Nat → Option String) (maxRounds : Nat),
      ((playRobotGuesses oracle listens maxRounds).history.length =
          (playRobotGuesses oracle listens maxRounds).rounds ∧
        ∀ j, (hj : j < (playRobotGuesses oracle listens maxRounds).history.length) →
          ((playRobotGuesses oracle listens maxRounds).history.get ⟨j, hj⟩).feedback =
            pyFeedback (listens j)) := by
  intro oracle listens maxRounds
  exact robotLoop_invariant oracle listens maxRounds 0 "" [] rfl (by intro j hj; cases hj)

/-- Claim C7 witness: with every listen silent, round 0 of a 2-round game
is recorded with feedback `"No response"` and the history length matches
the round count. -/
theorem claim_C7_witness :
    ((playRobotGuesses (fun _ _ => "Q?") (fun _ => none) 2).history.get
      ⟨0, by decide⟩).feedback = "No response" := by
  have h := (claim_C7_history (fun _ _ => "Q?") (fun _ => none) 2).2 0 (by decide)
  simpa using h

/-- Claim C5: the engine-guesses win check lowercases the feedback, deletes
`string.punctuation`, and looks for an affirmation keyword of the fixed
list as a substring; the feedback `"Yes, that's it!"` normalises to
`"yes thats it"`, matches, and makes the round loop exit as a win after
recording the round. -/
theorem claim_C5_affirmation :
    stripPunct (strLower "Yes, that\x27s it!") = "yes thats it" ∧
    winCheck "Yes, that\x27s it!" = true ∧
    playRobotGuesses (fun _ _ => "Is it a cat?")
        (fun _ => some "Yes, that\x27s it!") 15 =
      ⟨[⟨"Is it a cat?", "Yes, that\x27s it!"⟩], 1, true⟩ := by
  exact ⟨by decide, by decide, by decide⟩

/-- Claim C9: the `play_game_user_guesses` call of both the "I guess"
branch and the ambiguous-input default branch passes three positional plus
two keyword arguments to a function whose signature takes exactly
`(session, stt)`, so the binding fails (a `TypeError`); the parallel
robot-mode call binds fine, hence every run reaching the player-guesses
dispatch — and only those — raises. -/
theorem claim_C9_type_error :
    bindOk playGameUserGuessesDef userGuessesCallShape = false ∧
    bindOk playGameRobotGuessesDef robotGuessesCallShape = true ∧
    (∀ choice : Option String, chooseDispatch choice = .userCall →
      dispatchBindOk choice = false) := by
  refine ⟨by decide, by decide, ?_⟩
  intro choice h
  unfold dispatchBindOk
  rw [h]
  decide

/-- Claim C9 witness: both an explicit "I guess" choice and a silent
(defaulted) choice dispatch a call that fails to bind. -/
theorem claim_C9_witness :
    dispatchBindOk (some "I guess") = false ∧ dispatchBindOk none = false :=
  ⟨claim_C9_type_error.2.2 (some "I guess") (by decide),
   claim_C9_type_error.2.2 none (by decide)⟩

/-- The round counter produced by `robotLoop` never exceeds its start plus
the remaining round budget. -/
theorem robotLoop_rounds_le (oracle : String → List RGRound → String)
    (listens : Nat → Option String) :
    ∀ f c last hist, (robotLoop oracle listens f c last hist).rounds ≤ c + f := by
  intro f
  induction f with
  | zero =>
    intro c last hist
    simp [robotLoop]
  | succ f ih =>
    intro c last hist
    simp only [robotLoop]
    by_cases hw : winCheck (pyFeedback (listens c)) = true
    · rw [if_pos hw]
      show c + 1 ≤ c + (f + 1)
      omega
    · rw [if_neg hw]
      have := ih (c + 1) (pyFeedback (listens c))
        (hist ++ [⟨cleanGuess (oracle last hist), pyFeedback (listens c)⟩])
      omega

/-- A terminated `userLoop` run never exceeds the round cap. -/
theorem userLoop_rounds_le (listens : Nat → Option String)
    (judge : Nat → String × Bool) (maxRounds : Nat) :
    ∀ fuel i roundNum hints diff r, roundNum ≤ maxRounds →
      userLoop listens judge maxRounds fuel i roundNum hints diff = some r →
      r.rounds ≤ maxRounds := by
  intro fuel
  induction fuel with
  | zero =>
    intro i roundNum hints diff r _ h
    simp [userLoop] at h
  | succ f ih =>
    intro i roundNum hints diff r hle h
    simp only [userLoop] at h
    by_cases hr : roundNum < maxRounds
    · rw [if_pos hr] at h
      cases hl : pyStr (listens i) with
      | none =>
        rw [hl] at h
        exact ih (i + 1) roundNum hints diff r hle h
      | some g =>
        rw [hl] at h
        by_cases hc : (judge i).2 = true
        · rw [if_pos hc] at h
          cases h
          show roundNum ≤ maxRounds
          omega
        · rw [if_neg hc] at h
          exact ih (i + 1) (roundNum + 1) (hints ++ [(judge i).1]) diff r (by omega) h
    · rw [if_neg hr] at h
      cases h
      show roundNum ≤ maxRounds
      omega

/-- With every listen responsive, `userLoop` terminates within
`maxRounds - roundNum + 1` iterations. -/
theorem userLoop_responsive_terminates (listens : Nat → Option String)
    (judge : Nat → String × Bool) (maxRounds : Nat)
    (hresp : ∀ k, pyStr (listens k) ≠ none) :
    ∀ n i roundNum hints diff, maxRounds - roundNum = n →
      userLoop listens judge maxRounds (n + 1) i roundNum hints diff ≠ none := by
  intro n
  induction n with
  | zero =>
    intro i roundNum hints diff hn
    simp only [userLoop]
    by_cases hr : roundNum < maxRounds
    · omega
    · rw [if_neg hr]
      simp
  | succ n ih =>
    intro i roundNum hints diff hn
    simp only [userLoop]
    by_cases hr : roundNum < maxRounds
    · rw [if_pos hr]
      cases hl : pyStr (listens i) with
      | none => exact absurd hl (hresp i)
      | some g =>
        by_cases hc : (judge i).2 = true
        · rw [if_pos hc]
          simp
        · rw [if_neg hc]
          exact ih (i + 1) (roundNum + 1) (hints ++ [(judge i).1]) diff (by omega)
    · rw [if_neg hr]
      simp

/-- Claim C1 counterexample: in player-guesses mode with every listen
attempt returning no response, the guess loop is still running after 20
iterations (the `continue` of the no-response branch repeats the iteration
without advancing `round_num`), so it does not terminate within the
8-round cap as the claim states. -/
theorem claim_C1_counterexample :
    userLoop (fun _ => none) (fun _ => ("hint", false)) 8 20 0 0 [] 1 = none := by
  decide

/-- Claim C1 (amended): the engine-guesses round loop performs at most
`maxRounds` iterations for every Oracle and listen behaviour; the
player-guesses loop never exceeds its round cap and, when every listen
attempt yields a response, terminates within `maxRounds + 1` iterations —
but a silent attempt repeats the round without consuming the cap, so
termination is not unconditional there. -/
theorem claim_C1_amended :
    (∀ (oracle : String → List RGRound → String)
        (listens : Nat → Option String) (maxRounds : Nat),
        (playRobotGuesses oracle listens maxRounds).rounds ≤ maxRounds) ∧
    (∀ (listens : Nat → Option String) (judge : Nat → String × Bool)
        (maxRounds fuel : Nat) (r : UGResult),
        userLoop listens judge maxRounds fuel 0 0 [] 1 = some r →
        r.rounds ≤ maxRounds) ∧
    (∀ (listens : Nat → Option String) (judge : Nat → String × Bool)
        (maxRounds : Nat),
        (∀ k, pyStr (listens k) ≠ none) →
        userLoop listens judge maxRounds (maxRounds + 1) 0 0 [] 1 ≠ none) := by
  refine ⟨?_, ?_, ?_⟩
  · intro oracle listens maxRounds
    have := robotLoop_rounds_le oracle listens maxRounds 0 "" []
    simpa [playRobotGuesses] using this
  · intro listens judge maxRounds fuel r h
    exact userLoop_rounds_le listens judge maxRounds fuel 0 0 [] 1 r (by omega) h
  · intro listens judge maxRounds hresp
    have := userLoop_responsive_terminates listens judge maxRounds hresp
      (maxRounds - 0) 0 0 [] 1 rfl
    simpa using this

/-- Claim C1 witness: the amended bounds instantiated on concrete runs —
an all-silent engine-guesses game stops at its cap, a terminated
player-guesses run respects the cap, and an always-responsive
player-guesses run terminates within the budget. -/
theorem claim_C1_witness :
    (playRobotGuesses (fun _ _ => "Q?") (fun _ => none) 15).rounds ≤ 15 ∧
    (⟨8, false, ["no", "no", "no", "no", "no", "no", "no", "no"], 1⟩ : UGResult).rounds ≤ 8 ∧
    userLoop (fun _ => some "a chair") (fun _ => ("no", false)) 8 9 0 0 [] 1 ≠ none := by
  refine ⟨claim_C1_amended.1 (fun _ _ => "Q?") (fun _ => none) 15, ?_, ?_⟩
  · exact claim_C1_amended.2.1 (fun _ => some "a chair") (fun _ => ("no", false)) 8 9
      ⟨8, false, ["no", "no", "no", "no", "no", "no", "no", "no"], 1⟩ (by decide)
  · refine claim_C1_amended.2.2 (fun _ => some "a chair") (fun _ => ("no", false)) 8 ?_
    intro k
    show pyStr (some "a chair") ≠ none
    decide

/-- A cons extends a consecutive run: if `t` runs from `a + 1`, then
`a :: t` runs from `a`. -/
theorem cons_range' (a : Nat) (t : List Nat) (h : t = List.range' (a + 1) t.length) :
    a :: t = List.range' a (a :: t).length := by
  rw [List.length_cons, List.range'_succ]
  exact congrArg (List.cons a) h

/-- Every executed iteration of the `for attempt in range(max_attempts)`
loop of `ask_with_reprompt` carries the next attempt index: the trace of
`attempt` values is consecutive from the start index, and its length never
exceeds the remaining budget. -/
theorem askAux_trace (listens : Nat → Option String) (m : Nat) (ctx : Bool) :
    ∀ f a l,
      (askAux listens m ctx f a l).2 =
        List.range' a (askAux listens m ctx f a l).2.length ∧
      (askAux listens m ctx f a l).2.length ≤ f := by
  intro f
  induction f with
  | zero =>
    intro a l
    simp [askAux]
  | succ f ih =>
    intro a l
    simp only [askAux]
    cases hl : pyStr (listens l) with
    | some r =>
      dsimp only
      by_cases h1 : pyIn "repeat" (strLower r) = true
      · rw [if_pos h1]
        rcases ih (a + 1) (l + 1) with ⟨htr, hlen⟩
        constructor
        · exact cons_range' a _ htr
        · simp only [List.length_cons]
          omega
      · rw [if_neg h1]
        by_cases h2 : (pyIn "hint" (strLower r) && ctx) = true
        · rw [if_pos h2]
          cases hl2 : pyStr (listens (l + 1)) with
          | some r2 => simp [List.range']
          | none =>
            rcases ih (a + 1) (l + 2) with ⟨htr, hlen⟩
            constructor
            · exact cons_range' a _ htr
            · simp only [List.length_cons]
              omega
        · rw [if_neg h2]
          simp [List.range']
    | none =>
      dsimp only
      by_cases h1 : (decide (a = 1) && ctx) = true
      · rw [if_pos h1]
        rcases ih (a + 1) (l + 1) with ⟨htr, hlen⟩
        constructor
        · exact cons_range' a _ htr
        · simp only [List.length_cons]
          omega
      · rw [if_neg h1]
        by_cases h2 : a = m - 1
        · rw [if_pos h2]
          simp [List.range']
        · rw [if_neg h2]
          rcases ih (a + 1) (l + 1) with ⟨htr, hlen⟩
          constructor
          · exact cons_range' a _ htr
          · simp only [List.length_cons]
            omega

/-- Claim C2 counterexample: with `max_attempts = 2` and a first response
containing "repeat", the next iteration runs at attempt index 1 — the
`continue` of line 129 sits in a `for` loop, so the repeat consumed an
attempt instead of re-running attempt 0; with a single attempt budget a
lone "repeat" answer exhausts the loop and the call returns `None`. -/
theorem claim_C2_counterexample :
    askWithReprompt (fun k => if k = 0 then some "repeat" else some "a banana") 2 true =
      (some "a banana", [0, 1]) ∧
    askWithReprompt (fun _ => some "repeat") 1 true = (none, [0]) := by
  exact ⟨by decide, by decide⟩

/-- Claim C2 (amended): a response containing "repeat" makes
`ask_with_reprompt` retry at the NEXT attempt count — it consumes one of
the `max_attempts` attempts exactly like a failed attempt: the attempt
trace of every call is `0, 1, 2, ...` regardless of the listen outcomes,
with at most `max_attempts` entries.  (As the claim says, no Round record
is appended: the policy never touches the round history.) -/
theorem claim_C2_amended :
    ∀ (listens : Nat → Option String) (maxAttempts : Nat) (hasCtx : Bool),
      (askWithReprompt listens maxAttempts hasCtx).2 =
        List.range (askWithReprompt listens maxAttempts hasCtx).2.length ∧
      (askWithReprompt listens maxAttempts hasCtx).2.length ≤ maxAttempts := by
  intro listens maxAttempts hasCtx
  rcases askAux_trace listens maxAttempts hasCtx maxAttempts 0 0 with ⟨htr, hlen⟩
  refine ⟨?_, hlen⟩
  rw [List.range_eq_range']
  exact htr

/-- Claim C3 counterexample: a session run with starting difficulty 3 in
which the player is wrong in every round ends — well past the second
incorrect guess — with difficulty still 3: no decrement to 2 ever happens
(there is no adaptive-difficulty code in the loop).  Moreover
`play_game_user_guesses` fixes the session difficulty to 1 (line 51), so a
session can not even start at difficulty 3. -/
theorem claim_C3_counterexample :
    userLoop (fun _ => some "a chair") (fun _ => ("no", false)) 8 9 0 0 [] 3 =
      some ⟨8, false, ["no", "no", "no", "no", "no", "no", "no", "no"], 3⟩ ∧
    sessionDifficulty = 1 := by
  exact ⟨by decide, by decide⟩

/-- Claim C3 (amended): the player-guesses engine has no difficulty
adaptation: the guess loop never modifies the difficulty value it was
started with, and the session hard-codes that value to 1, so the difficulty
is trivially non-increasing and never drops or rises within a session. -/
theorem claim_C3_amended :
    sessionDifficulty = 1 ∧
    ∀ (listens : Nat → Option String) (judge : Nat → String × Bool)
      (maxRounds fuel i roundNum : Nat) (hints : List String)
      (diff : Nat) (r : UGResult),
      userLoop listens judge maxRounds fuel i roundNum hints diff = some r →
      r.difficulty = diff := by
  refine ⟨rfl, ?_⟩
  intro listens judge maxRounds fuel
  induction fuel with
  | zero =>
    intro i roundNum hints diff r h
    simp [userLoop] at h
  | succ f ih =>
    intro i roundNum hints diff r h
    simp only [userLoop] at h
    by_cases hr : roundNum < maxRounds
    · rw [if_pos hr] at h
      cases hl : pyStr (listens i) with
      | none =>
        rw [hl] at h
        exact ih (i + 1) roundNum hints diff r h
      | some g =>
        rw [hl] at h
        by_cases hc : (judge i).2 = true
        · rw [if_pos hc] at h
          cases h
          rfl
        · rw [if_neg hc] at h
          exact ih (i + 1) (roundNum + 1) (hints ++ [(judge i).1]) diff r h
    · rw [if_neg hr] at h
      cases h
      rfl

/-- Claim C3 witness: the no-adaptation law instantiated on a concrete
all-wrong session started at the hard-coded difficulty. -/
theorem claim_C3_witness :
    (⟨8, false, ["no", "no", "no", "no", "no", "no", "no", "no"], 1⟩ : UGResult).difficulty = 1 := by
  exact claim_C3_amended.2 (fun _ => some "a chair") (fun _ => ("no", false)) 8 9 0 0 [] 1
    ⟨8, false, ["no", "no", "no", "no", "no", "no", "no", "no"], 1⟩ (by decide)

/-- No entry of the color fallback table is the literal `"unknown"`. -/
theorem commonColors_concrete : ∀ kv ∈ commonColors, kv.2 ≠ "unknown" := by
  decide

/-- No entry of the shape fallback table is the literal `"unknown"`. -/
theorem shapeTable_concrete : ∀ kv ∈ shapeTable, kv.2 ≠ "unknown" := by
  decide

/-- The color fallback never yields the literal `"unknown"`. -/
theorem fixColor_concrete (nameLower c : String) : fixColor nameLower c ≠ "unknown" := by
  unfold fixColor
  by_cases hc : c = "unknown"
  · rw [if_pos hc]
    cases hf : commonColors.find? (fun kv => pyIn kv.1 nameLower) with
    | none => decide
    | some kv =>
      exact commonColors_concrete kv (List.mem_of_find?_eq_some hf)
  · rw [if_neg hc]
    exact hc

/-- The size fallback never yields the literal `"unknown"`. -/
theorem fixSize_concrete (nameLower s : String) : fixSize nameLower s ≠ "unknown" := by
  unfold fixSize
  by_cases hs : s = "unknown"
  · rw [if_pos hs]
    by_cases h1 : largeObjects.any (fun o => pyIn o nameLower) = true
    · rw [if_pos h1]
      decide
    · rw [if_neg h1]
      by_cases h2 : smallObjects.any (fun o => pyIn o nameLower) = true
      · rw [if_pos h2]
        decide
      · rw [if_neg h2]
        decide
  · rw [if_neg hs]
    exact hs

/-- The shape fallback never yields the literal `"unknown"`. -/
theorem fixShape_concrete (nameLower sh : String) : fixShape nameLower sh ≠ "unknown" := by
  unfold fixShape
  by_cases hs : sh = "unknown"
  · rw [if_pos hs]
    cases hf : shapeTable.find? (fun kv => pyIn kv.1 nameLower) with
    | none => decide
    | some kv =>
      exact shapeTable_concrete kv (List.mem_of_find?_eq_some hf)
  · rw [if_neg hs]
    exact hs

/-- The feature-verification block leaves no `"unknown"` field behind. -/
theorem fixFeatures_concrete (dobj : DetailedObject) :
    (fixFeatures dobj).features.color ≠ "unknown" ∧
    (fixFeatures dobj).features.size ≠ "unknown" ∧
    (fixFeatures dobj).features.shape ≠ "unknown" := by
  unfold fixFeatures
  by_cases h : (dobj.features.color = "unknown" || dobj.features.size = "unknown" ||
      dobj.features.shape = "unknown") = true
  · rw [if_pos h]
    exact ⟨fixColor_concrete _ _, fixSize_concrete _ _, fixShape_concrete _ _⟩
  · rw [if_neg h]
    simp only [Bool.or_eq_true, decide_eq_true_eq] at h
    push_neg at h
    exact ⟨h.1.1, h.1.2, h.2⟩

/-- On an object named "monitor" whose color is `"unknown"`, the
verification block rewrites the color to `"black"` (first hit of the
`common_colors` table). -/
theorem fixFeatures_monitor (dobj : DetailedObject) (hname : dobj.name = "monitor")
    (hcolor : dobj.features.color = "unknown") :
    (fixFeatures dobj).features.color = "black" := by
  obtain ⟨n, c, sz, sh⟩ := dobj
  dsimp only at hname hcolor
  subst hname
  subst hcolor
  unfold fixFeatures
  rw [if_pos (by simp)]
  show fixColor (strLower "monitor") "unknown" = "black"
  decide

/-- Claim C6 counterexample: an object recovered through the secondary
regex-extraction path (line 403: primary JSON parse fails, the extracted
group parses) is returned as-is — here an object named "monitor" with
`features.color == "unknown"` comes back still `"unknown"`, not rewritten
to `"black"`, contradicting "for every object returned by
`choose_object` ... never the literal unknown". -/
theorem claim_C6_counterexample :
    choose_object [("obj_1", ⟨"monitor", 1, "chatgpt"⟩)] 1 none
        (some (some ⟨"monitor", ⟨"unknown", "medium", "rectangular"⟩⟩)) =
      some ⟨"monitor", ⟨"unknown", "medium", "rectangular"⟩⟩ := by
  decide

/-- Claim C6 (amended): every object returned through the PRIMARY parse
path has concrete feature fields — the verification block substitutes every
`"unknown"` through the fixed name lookup tables, and in particular an
object named "monitor" with unknown color is rewritten to `"black"`; only
the secondary regex-extraction fallback can return unknown features. -/
theorem claim_C6_amended :
    ∀ (objects : List (String × ObjData)) (difficulty : Nat)
      (dobj : DetailedObject) (extracted : Option (Option DetailedObject))
      (r : DetailedObject),
      choose_object objects difficulty (some dobj) extracted = some r →
      (r.features.color ≠ "unknown" ∧ r.features.size ≠ "unknown" ∧
        r.features.shape ≠ "unknown") ∧
      (dobj.name = "monitor" → dobj.features.color = "unknown" →
        r.features.color = "black") := by
  intro objects difficulty dobj extracted r h
  unfold choose_object at h
  by_cases he : (objects.filter (fun kv => kv.2.source = "chatgpt")).isEmpty = true
  · rw [if_pos he] at h
    cases h
  · rw [if_neg he] at h
    dsimp only at h
    have hr : r = fixFeatures dobj := (Option.some_injective _ h).symm
    subst hr
    refine ⟨fixFeatures_concrete dobj, ?_⟩
    intro hname hcolor
    exact fixFeatures_monitor dobj hname hcolor

/-- Claim C6 witness: the amended law instantiated on a primary-parse run
whose object is a "monitor" with every feature unknown: the result has the
concrete features black/medium/rectangular. -/
theorem claim_C6_witness :
    ((⟨"monitor", ⟨"black", "medium", "rectangular"⟩⟩ : DetailedObject).features.color ≠ "unknown" ∧
      (⟨"monitor", ⟨"black", "medium", "rectangular"⟩⟩ : DetailedObject).features.size ≠ "unknown" ∧
      (⟨"monitor", ⟨"black", "medium", "rectangular"⟩⟩ : DetailedObject).features.shape ≠ "unknown") ∧
    ((⟨"monitor", ⟨"unknown", "unknown", "unknown"⟩⟩ : DetailedObject).name = "monitor" →
      (⟨"monitor", ⟨"unknown", "unknown", "unknown"⟩⟩ : DetailedObject).features.color = "unknown" →
      (⟨"monitor", ⟨"black", "medium", "rectangular"⟩⟩ : DetailedObject).features.color = "black") := by
  exact claim_C6_amended [("obj_1", ⟨"monitor", 1, "chatgpt"⟩)] 1
    ⟨"monitor", ⟨"unknown", "unknown", "unknown"⟩⟩ none
    ⟨"monitor", ⟨"black", "medium", "rectangular"⟩⟩ (by decide)

/-- The f-string of `_build_chat_prompt` always raises `NameError`: the
interpolation `{difference}` reads a name outside the function's scope, and
this happens before any network request. -/
theorem buildChatPrompt_raises (objName dutchName color size shape : String)
    (difficulty roundNum : Nat) (prevHintsRepr : String) :
    buildChatPrompt objName dutchName color size shape difficulty roundNum
      prevHintsRepr = .error "NameError: name is not defined" := by
  rfl

/-- The fallback table always has five entries. -/
theorem fallbackTable_length (difficulty : Nat) (obj : GameObject) :
    (fallbackTable difficulty obj).length = 5 := by
  unfold fallbackTable
  by_cases h1 : difficulty = 1
  · rw [if_pos h1]
    rfl
  · rw [if_neg h1]
    by_cases h2 : difficulty = 2
    · rw [if_pos h2]
      rfl
    · rw [if_neg h2]
      by_cases h3 : difficulty = 3
      · rw [if_pos h3]
        rfl
      · rw [if_neg h3]
        rfl

/-- Claim C8: a non-initial `give_hint` call always returns the canned
fallback hint — `_build_chat_prompt` evaluates the unbound name
`difference`, so the GPT path raises before calling the Oracle whatever the
Oracle would do, the exception handler takes the fallback branch, and the
fallback is the per-difficulty table entry at index `min(round_num, 4)`. -/
theorem claim_C8_fallback :
    ∀ (oracle : String → Except String String) (obj : GameObject)
      (difficulty roundNum : Nat) (prevHintsRepr : String),
      give_hint oracle obj difficulty roundNum prevHintsRepr false =
        fallbackHint difficulty roundNum obj ∧
      fallbackHint difficulty roundNum obj =
        (fallbackTable difficulty obj).getD (min roundNum 4) "" := by
  intro oracle obj difficulty roundNum prevHintsRepr
  constructor
  · unfold give_hint generateGptHint
    rw [show (buildChatPrompt obj.name obj.dutchName obj.features.color
        obj.features.size obj.features.shape difficulty roundNum prevHintsRepr) =
        .error "NameError: name is not defined" from
      buildChatPrompt_raises obj.name obj.dutchName obj.features.color
        obj.features.size obj.features.shape difficulty roundNum prevHintsRepr]
    rfl
  · show (fallbackTable difficulty obj).getD
        (min roundNum ((fallbackTable difficulty obj).length - 1)) "" =
      (fallbackTable difficulty obj).getD (min roundNum 4) ""
    rw [fallbackTable_length]

/-- The confirmation phase never returns the Absent outcome. -/
theorem listenConfirm_not_none (stream : Nat → Drained) (poll silence timeout : ℚ)
    (hp : 0 < poll) :
    ∀ k waited sw words response,
      listenConfirm stream poll silence timeout hp k waited sw words response ≠
        Except.ok none := by
  intro k waited sw words response
  induction k, waited, sw, words, response using listenConfirm.induct stream poll silence timeout hp with
  | case1 k waited sw words response h1 =>
    rw [listenConfirm]
    simp [h1]
  | case2 k waited sw response h1 nw ht =>
    rw [listenConfirm]
    simp [h1, ht]
  | case3 k waited sw response h1 nw ht ih =>
    rw [listenConfirm]
    simp [h1, ht]
    exact ih
  | case4 k waited sw words response h1 nw hne hemp =>
    rw [listenConfirm]
    simp [h1, hne, hemp]
  | case5 k waited sw words response h1 nw hne hnemp ht =>
    rw [listenConfirm]
    simp [h1, hne, hnemp, ht]
  | case6 k waited sw words response h1 nw hne hnemp r ht ih =>
    rw [listenConfirm]
    simp [h1, hne, hnemp, ht]
    exact ih

/-- When every batch from index `k` on is non-empty (the accumulating
word buffer never shrinks to empty once speech arrived), the confirmation
phase always returns a captured response. -/
theorem listenConfirm_some (stream : Nat → Drained) (poll silence timeout : ℚ)
    (hp : 0 < poll) :
    ∀ k waited sw words response,
      (∀ j, k ≤ j → drainedIsEmpty (stream j) = false) →
      ∃ r, listenConfirm stream poll silence timeout hp k waited sw words response =
        Except.ok (some r) := by
  intro k waited sw words response
  induction k, waited, sw, words, response using listenConfirm.induct stream poll silence timeout hp with
  | case1 k waited sw words response h1 =>
    intro _
    refine ⟨response, ?_⟩
    rw [listenConfirm]
    simp [h1]
  | case2 k waited sw response h1 nw ht =>
    intro _
    refine ⟨response, ?_⟩
    rw [listenConfirm]
    simp [h1, ht]
  | case3 k waited sw response h1 nw ht ih =>
    intro hall
    obtain ⟨r, hr⟩ := ih (fun j hj => hall j (by omega))
    refine ⟨r, ?_⟩
    rw [listenConfirm]
    simpa [h1, ht] using hr
  | case4 k waited sw words response h1 nw hne hemp =>
    intro hall
    have := hall k (le_refl k)
    rw [hemp] at this
    cases this
  | case5 k waited sw words response h1 nw hne hnemp ht =>
    intro _
    refine ⟨normalizeDrain (stream k), ?_⟩
    rw [listenConfirm]
    simp [h1, hne, hnemp, ht]
  | case6 k waited sw words response h1 nw hne hnemp r ht ih =>
    intro hall
    obtain ⟨r2, hr2⟩ := ih (fun j hj => hall j (by omega))
    refine ⟨r2, ?_⟩
    rw [listenConfirm]
    simpa [h1, hne, hnemp, ht] using hr2

/-- Once a batch is non-empty, all later batches of a growing stream are
non-empty. -/
theorem drained_persist (stream : Nat → Drained)
    (hg : ∀ j, drainedIsEmpty (stream j) = false →
      drainedIsEmpty (stream (j + 1)) = false) :
    ∀ m j, m ≤ j → drainedIsEmpty (stream m) = false →
      drainedIsEmpty (stream j) = false := by
  intro m j hmj hm
  induction j, hmj using Nat.le_induction with
  | base => exact hm
  | succ j hmj ih => exact hg j ih

/-- If the polling loop returns Absent, every batch drained strictly before
the timeout was empty. -/
theorem listenLoop_none_empty (stream : Nat → Drained) (poll silence timeout : ℚ)
    (hp : 0 < poll) :
    ∀ (i : Nat), ∀ k (waited : ℚ),
      listenLoop stream poll silence timeout hp k waited = Except.ok none →
      waited + (i : ℚ) * poll < timeout →
      drainedIsEmpty (stream (k + i)) = true := by
  intro i
  induction i with
  | zero =>
    intro k waited h hlt
    rw [Nat.cast_zero, zero_mul, add_zero] at hlt
    rw [listenLoop, if_neg (not_le.mpr hlt)] at h
    by_cases hemp : drainedIsEmpty (stream k) = true
    · simpa using hemp
    · rw [if_neg hemp] at h
      exact absurd h (listenConfirm_not_none stream poll silence timeout hp _ _ _ _ _)
  | succ i ih =>
    intro k waited h hlt
    have hpos : (0 : ℚ) < ((i : ℚ) + 1) * poll := by
      have : (0 : ℚ) < (i : ℚ) + 1 := by positivity
      exact mul_pos this hp
    have hwlt : waited < timeout := by
      push_cast at hlt
      nlinarith
    rw [listenLoop, if_neg (not_le.mpr hwlt)] at h
    by_cases hemp : drainedIsEmpty (stream k) = true
    · rw [if_pos hemp] at h
      have harith : waited + poll + (i : ℚ) * poll < timeout := by
        push_cast at hlt ⊢
        linarith
      have := ih (k + 1) (waited + poll) h harith
      have hidx : k + 1 + i = k + (i + 1) := by omega
      rwa [hidx] at this
    · rw [if_neg hemp] at h
      exact absurd h (listenConfirm_not_none stream poll silence timeout hp _ _ _ _ _)

/-- If some batch drained strictly before the timeout is non-empty and the
stream grows, the polling loop returns a captured response. -/
theorem listenLoop_speech_some (stream : Nat → Drained) (poll silence timeout : ℚ)
    (hp : 0 < poll)
    (hg : ∀ j, drainedIsEmpty (stream j) = false →
      drainedIsEmpty (stream (j + 1)) = false) :
    ∀ (i : Nat), ∀ k (waited : ℚ),
      waited + (i : ℚ) * poll < timeout →
      drainedIsEmpty (stream (k + i)) = false →
      ∃ r, listenLoop stream poll silence timeout hp k waited =
        Except.ok (some r) := by
  intro i
  induction i with
  | zero =>
    intro k waited hlt hne
    rw [Nat.cast_zero, zero_mul, add_zero] at hlt
    rw [Nat.add_zero] at hne
    obtain ⟨r, hr⟩ := listenConfirm_some stream poll silence timeout hp (k + 1)
      (waited + poll) 0 (stream k) (normalizeDrain (stream k))
      (fun j hj => drained_persist stream hg k j (by omega) hne)
    refine ⟨r, ?_⟩
    rw [listenLoop, if_neg (not_le.mpr hlt), if_neg (by rw [hne]; simp)]
    exact hr
  | succ i ih =>
    intro k waited hlt hne
    have hpos : (0 : ℚ) < ((i : ℚ) + 1) * poll := by
      have : (0 : ℚ) < (i : ℚ) + 1 := by positivity
      exact mul_pos this hp
    have hwlt : waited < timeout := by
      push_cast at hlt
      nlinarith
    by_cases hemp : drainedIsEmpty (stream k) = true
    · have harith : waited + poll + (i : ℚ) * poll < timeout := by
        push_cast at hlt ⊢
        linarith
      have hidx : k + 1 + i = k + (i + 1) := by omega
      obtain ⟨r, hr⟩ := ih (k + 1) (waited + poll) harith (by rwa [hidx])
      refine ⟨r, ?_⟩
      rw [listenLoop, if_neg (not_le.mpr hwlt), if_pos hemp]
      exact hr
    · have hne0 : drainedIsEmpty (stream k) = false := by
        cases hb : drainedIsEmpty (stream k)
        · rfl
        · exact absurd hb hemp
      obtain ⟨r, hr⟩ := listenConfirm_some stream poll silence timeout hp (k + 1)
        (waited + poll) 0 (stream k) (normalizeDrain (stream k))
        (fun j hj => drained_persist stream hg k j (by omega) hne0)
      refine ⟨r, ?_⟩
      rw [listenLoop, if_neg (not_le.mpr hwlt), if_neg hemp]
      exact hr

/-- Claim C4: `DialogueManager.listen` returns Absent only when no poll
drained words before the timeout; and once any poll has drained a
non-empty batch (with the accumulating buffer never shrinking back to
empty), the captured best response is returned — both on silence-window
expiry and on total timeout during confirmation — never Absent. -/
theorem claim_C4_listen :
    ∀ (stream : Nat → Drained) (poll silence timeout : ℚ) (hp : 0 < poll),
      (listenLoop stream poll silence timeout hp 0 0 = Except.ok none →
        ∀ i : Nat, (i : ℚ) * poll < timeout →
          drainedIsEmpty (stream i) = true) ∧
      ((∀ j, drainedIsEmpty (stream j) = false →
          drainedIsEmpty (stream (j + 1)) = false) →
        (∃ i : Nat, (i : ℚ) * poll < timeout ∧
          drainedIsEmpty (stream i) = false) →
        ∃ r, listenLoop stream poll silence timeout hp 0 0 =
          Except.ok (some r)) := by
  intro stream poll silence timeout hp
  constructor
  · intro h i hi
    have := listenLoop_none_empty stream poll silence timeout hp i 0 0 h
      (by rwa [zero_add])
    simpa using this
  · intro hg ⟨i, hi, hne⟩
    exact listenLoop_speech_some stream poll silence timeout hp hg i 0 0
      (by rwa [zero_add]) (by simpa using hne)

/-- Claim C4 witness: with words `["red"]` present at every poll,
`listen(poll=1, silence=2, timeout=15)` returns a response, not Absent. -/
theorem claim_C4_witness :
    ∃ r, listenLoop (fun _ => Drained.strs ["red"]) 1 2 15 (by norm_num) 0 0 =
      Except.ok (some r) := by
  refine (claim_C4_listen (fun _ => Drained.strs ["red"]) 1 2 15 (by norm_num)).2
    (fun j h => ?_) ⟨0, by norm_num, by decide⟩
  decide

end SocialRobotics
